import Mathlib

/-!
Verification of the pgauditlogtofile core (logtofile.c): shared rotation
state, rotation-deadline computation, CSV line formatting, and the
record/write pipeline.  Machine integers (pg_time_t, int) are modelled as
Int; the C remainder operator is truncated remainder, modelled by Int.tmod.
Strings are modelled as Lean String / List Char; the C code never stores a
NUL inside a string, so NUL terminators are left implicit.
-/

namespace PgAuditLogToFile

/-- ASCII lower-casing of one character, as done by pg_strcasecmp for the
ASCII range (locale-dependent folding of high-bit bytes is outside the
fragment exercised here, where all names are ASCII). -/
def pg_tolower (c : Char) : Char :=
  if 'A' ≤ c ∧ c ≤ 'Z' then Char.ofNat (c.toNat + 32) else c

/-- Boolean form of pg_strcasecmp(a, b) == 0: equality of the two strings
after ASCII case folding.  Line 330 of logtofile.c only uses whether the
comparison result is zero. -/
def pg_strcasecmp_eq (a b : String) : Bool :=
  a.data.map pg_tolower = b.data.map pg_tolower

/-- Minimum value admitted for the pgaudit.log_rotation_age GUC, from the
DefineCustomIntVariable call in _PG_init (logtofile.c lines 175-181). -/
def guc_rotation_age_min : Int := 0

/-- Default value of pgaudit.log_rotation_age: HOURS_PER_DAY * MINS_PER_HOUR
minutes (one day). -/
def guc_rotation_age_default : Int := 24 * 60

/-- Shared-memory coordination structure pgAuditLogToFileShm
(logtofile.c lines 53-59).  The LWLock itself is modelled by treating each
locked region as one atomic state update. -/
structure Shm where
  filename : String
  force_rotation : Bool
  next_rotation_time : Int
  deriving DecidableEq, Repr

/-- pgauditlogtofile_calculate_next_rotation_time (logtofile.c lines
350-364): convert the rotation age to seconds, shift now by the timezone
offset, truncate to the interval boundary with the C remainder (truncated
remainder, Int.tmod), advance one interval, shift back. -/
def pgauditlogtofile_calculate_next_rotation_time
    (now gmtoff rotation_age : Int) : Int :=
  let rotinterval := rotation_age * 60
  let n1 := now + gmtoff
  let n2 := n1 - Int.tmod n1 rotinterval
  let n3 := n2 + rotinterval
  n3 - gmtoff

/-- pgauditlogtofile_needs_rotate_file (logtofile.c lines 319-345).
Inputs: the shared state, this backend filename_in_use copy, the current
time, the timezone offset and the rotation age GUC.  Returns the boolean
result together with the shared state after the call (the force flag is
cleared in the first branch; the deadline is recomputed and stored in the
third branch). -/
def pgauditlogtofile_needs_rotate_file
    (shm : Shm) (filename_in_use : String) (now gmtoff rotation_age : Int) :
    Bool × Shm :=
  if shm.force_rotation then
    (true, { shm with force_rotation := false })
  else if !(pg_strcasecmp_eq filename_in_use shm.filename) then
    (true, shm)
  else if shm.next_rotation_time ≤ now then
    (true, { shm with next_rotation_time :=
      pgauditlogtofile_calculate_next_rotation_time now gmtoff rotation_age })
  else
    (false, shm)

/-- Claim C1: pgauditlogtofile_needs_rotate_file returns true exactly when
the force flag is set, or the backend filename differs (case-insensitively)
from the shared filename, or the current time has reached the shared
deadline; the resulting shared state shows the three conditions are tested
in this order with the first true short-circuiting the rest, and the force
flag is cleared when it is the condition observed true. -/
theorem needs_rotate_file_spec
    (shm : Shm) (fn : String) (now gmtoff age : Int) :
    (pgauditlogtofile_needs_rotate_file shm fn now gmtoff age).1
      = (shm.force_rotation || !(pg_strcasecmp_eq fn shm.filename)
          || decide (shm.next_rotation_time ≤ now))
    ∧ (pgauditlogtofile_needs_rotate_file shm fn now gmtoff age).2
      = (if shm.force_rotation then { shm with force_rotation := false }
         else if !(pg_strcasecmp_eq fn shm.filename) then shm
         else if shm.next_rotation_time ≤ now then
           { shm with next_rotation_time :=
             pgauditlogtofile_calculate_next_rotation_time now gmtoff age }
         else shm) := by
  unfold pgauditlogtofile_needs_rotate_file
  constructor <;> split <;> simp_all <;> split <;> simp_all <;> split <;> simp_all

/-- Claim C2: the next-rotation-time computation satisfies the stated
formula (with mod the C truncated remainder), successive deadlines with a
60-minute interval are exactly 3600 seconds apart, and every deadline is
aligned to the top of an hour in the configured timezone. -/
theorem calculate_next_rotation_time_spec
    (now tz m : Int) (_hm : 0 < m) :
    pgauditlogtofile_calculate_next_rotation_time now tz m
      = ((now + tz) - Int.tmod (now + tz) (m * 60) + m * 60) - tz
    ∧ (∀ d : Int,
        pgauditlogtofile_calculate_next_rotation_time
          (pgauditlogtofile_calculate_next_rotation_time d tz 60) tz 60
        = pgauditlogtofile_calculate_next_rotation_time d tz 60 + 3600)
    ∧ (pgauditlogtofile_calculate_next_rotation_time now tz 60 + tz) % 3600
        = 0 := by
  refine ⟨rfl, ?_, ?_⟩
  · intro d
    unfold pgauditlogtofile_calculate_next_rotation_time
    have h1 : (d + tz) - Int.tmod (d + tz) (60 * 60)
        = (60 * 60) * Int.tdiv (d + tz) (60 * 60) := by
      have := Int.tmod_add_tdiv (d + tz) (60 * 60)
      omega
    have h2 : ((d + tz) - Int.tmod (d + tz) (60 * 60) + 60 * 60 - tz) + tz
        = (60 * 60) * (Int.tdiv (d + tz) (60 * 60) + 1) := by
      rw [Int.mul_add]
      omega
    have h3 : Int.tmod ((60 * 60) * (Int.tdiv (d + tz) (60 * 60) + 1)) (60 * 60)
        = 0 :=
      Int.mul_tmod_right (60 * 60) (Int.tdiv (d + tz) (60 * 60) + 1)
    simp only []
    rw [h2, h3]
    omega
  · unfold pgauditlogtofile_calculate_next_rotation_time
    have h1 : (now + tz) - Int.tmod (now + tz) (60 * 60)
        = (60 * 60) * Int.tdiv (now + tz) (60 * 60) := by
      have := Int.tmod_add_tdiv (now + tz) (60 * 60)
      omega
    have h2 : ((now + tz) - Int.tmod (now + tz) (60 * 60) + 60 * 60 - tz) + tz
        = (60 * 60) * (Int.tdiv (now + tz) (60 * 60) + 1) := by
      rw [Int.mul_add]
      omega
    simp only []
    rw [h2]
    omega

/-- Witness for claim C2 at a concrete input. -/
theorem calculate_next_rotation_time_spec_witness :
    (0 : Int) < 60
    ∧ (pgauditlogtofile_calculate_next_rotation_time 1000 0 60
        = ((1000 + 0) - Int.tmod (1000 + 0) (60 * 60) + 60 * 60) - 0
      ∧ (∀ d : Int,
          pgauditlogtofile_calculate_next_rotation_time
            (pgauditlogtofile_calculate_next_rotation_time d 0 60) 0 60
          = pgauditlogtofile_calculate_next_rotation_time d 0 60 + 3600)
      ∧ (pgauditlogtofile_calculate_next_rotation_time 1000 0 60 + 0) % 3600
          = 0) :=
  ⟨by decide, calculate_next_rotation_time_spec 1000 0 60 (by decide)⟩

/-- Claim C8: under the precondition rotation_age greater than 0 the
divisor of the truncating remainder is nonzero and the computation totally
returns the stated value, while the configuration layer itself admits a
minimum of 0 minutes, so validating positivity rests on the caller. -/
theorem calculate_next_rotation_time_total
    (now tz m : Int) (_hm : 0 < m) :
    (m * 60 ≠ 0
      ∧ pgauditlogtofile_calculate_next_rotation_time now tz m
          = ((now + tz) - Int.tmod (now + tz) (m * 60) + m * 60) - tz)
    ∧ guc_rotation_age_min = 0
    ∧ ¬ (0 < guc_rotation_age_min) := by
  refine ⟨⟨?_, rfl⟩, rfl, by decide⟩
  intro h
  omega

/-- Witness for claim C8 at a concrete input. -/
theorem calculate_next_rotation_time_total_witness :
    (0 : Int) < 1440
    ∧ (((1440 : Int) * 60 ≠ 0
        ∧ pgauditlogtofile_calculate_next_rotation_time 5000 3600 1440
            = ((5000 + 3600) - Int.tmod (5000 + 3600) (1440 * 60) + 1440 * 60)
                - 3600)
      ∧ guc_rotation_age_min = 0
      ∧ ¬ (0 < guc_rotation_age_min)) :=
  ⟨by decide, calculate_next_rotation_time_total 5000 3600 1440 (by decide)⟩

/-- Quote-doubling loop of pgauditlogtofile_append_csv_literal (logtofile.c
lines 636-640): each character is copied, with a double quote emitted twice. -/
def csv_escape : List Char → List Char
  | [] => []
  | c :: rest =>
    if c = '"' then '"' :: '"' :: csv_escape rest else c :: csv_escape rest

/-- pgauditlogtofile_append_csv_literal (logtofile.c lines 626-642): a NULL
pointer (None) appends nothing at all; otherwise the data is wrapped in
double quotes with internal double quotes doubled. -/
def append_csv_literal : Option (List Char) → List Char
  | none => []
  | some s => '"' :: (csv_escape s ++ ['"'])

/-- Modelled from the spec: standard CSV unquoting of the text between the
outer quotes, collapsing each doubled double quote into one.  This is the
inverse direction named by the round-trip property; it has no counterpart
in logtofile.c. -/
def csv_unescape : List Char → List Char
  | [] => []
  | [c] => [c]
  | c1 :: c2 :: rest =>
    if c1 = '"' ∧ c2 = '"' then '"' :: csv_unescape rest
    else c1 :: csv_unescape (c2 :: rest)

/-- Modelled from the spec: standard CSV unquoting of a whole rendered
field: strip the outer quote pair, then collapse doubled quotes. -/
def csv_unquote (l : List Char) : List Char :=
  csv_unescape ((l.drop 1).dropLast)

theorem csv_unescape_cons (c : Char) (l : List Char) (hc : c ≠ '"') :
    csv_unescape (c :: l) = c :: csv_unescape l := by
  cases l with
  | nil => rfl
  | cons d t =>
    have hcond : ¬ (c = '"' ∧ d = '"') := fun h => hc h.1
    show (if c = '"' ∧ d = '"' then '"' :: csv_unescape t
          else c :: csv_unescape (d :: t)) = c :: csv_unescape (d :: t)
    rw [if_neg hcond]

theorem csv_unescape_escape (s : List Char) :
    csv_unescape (csv_escape s) = s := by
  induction s with
  | nil => rfl
  | cons c rest ih =>
    by_cases hc : c = '"'
    · subst hc
      show csv_unescape (csv_escape ('"' :: rest)) = '"' :: rest
      unfold csv_escape
      rw [if_pos rfl]
      unfold csv_unescape
      cases h : csv_escape rest with
      | nil =>
        rw [if_pos ⟨rfl, rfl⟩]
        rw [h] at ih
        simp_all [csv_unescape]
      | cons d t =>
        rw [if_pos ⟨rfl, rfl⟩]
        rw [h] at ih
        rw [ih]
    · show csv_unescape (csv_escape (c :: rest)) = c :: rest
      unfold csv_escape
      rw [if_neg hc, csv_unescape_cons c _ hc, ih]

/-- Claim C3: a present text field is rendered as a double-quoted literal
with internal double quotes doubled, an absent (NULL) text field renders
as nothing at all, the stated example renders to the stated literal, and
standard CSV unquoting of the rendered form recovers the original text on
every string. -/
theorem append_csv_literal_spec :
    (∀ s : List Char,
        append_csv_literal (some s) = '"' :: (csv_escape s ++ ['"']))
    ∧ append_csv_literal none = []
    ∧ append_csv_literal (some ("He said \"hi\", bye").data)
        = ("\"He said \"\"hi\"\", bye\"").data
    ∧ (∀ s : List Char, csv_unquote (append_csv_literal (some s)) = s) := by
  refine ⟨fun s => rfl, rfl, by decide, fun s => ?_⟩
  show csv_unescape ((('"' :: (csv_escape s ++ ['"'])).drop 1).dropLast) = s
  have h1 : ('"' :: (csv_escape s ++ ['"'])).drop 1 = csv_escape s ++ ['"'] :=
    rfl
  rw [h1]
  have h2 : (csv_escape s ++ ['"']).dropLast = csv_escape s := by
    simp
  rw [h2]
  exact csv_unescape_escape s

/-- Static variables of pgauditlogtofile_format_audit_line together with
the process-wide formatted_start_time buffer (logtofile.c lines 49, 464-468):
the per-process line counter, the pid the counter was last reset for, and
the cached session-start text (None models the emptied buffer). -/
structure FmtStatics where
  log_line_number : Int
  log_my_pid : Int
  formatted_start_time : Option String
  deriving DecidableEq, Repr

/-- Initial values of the formatter statics: counter 0, pid 0, empty
session-start buffer. -/
def initFmtStatics : FmtStatics := ⟨0, 0, none⟩

/-- Identity check at logtofile.c lines 475-479: when the observed pid
differs from the cached one, the counter resets to 0, the pid is cached,
and the session-start text is invalidated; otherwise nothing changes. -/
def fmt_reset_check (st : FmtStatics) (myProcPid : Int) : FmtStatics :=
  if st.log_my_pid ≠ myProcPid then
    { log_line_number := 0, log_my_pid := myProcPid,
      formatted_start_time := none }
  else st

/-- Effect of one pgauditlogtofile_format_audit_line call on the statics
(logtofile.c lines 475-480 and 543-544): identity check, counter increment
(line 480, before any output), and refill of the session-start cache when
empty (lines 543-544, start_text being the freshly formatted start time).
Returns the new statics and the line number printed for this record. -/
def format_audit_line_statics (st : FmtStatics) (myProcPid : Int)
    (start_text : String) : FmtStatics × Int :=
  let st1 := fmt_reset_check st myProcPid
  let st2 := { st1 with log_line_number := st1.log_line_number + 1 }
  let cached := st2.formatted_start_time.getD start_text
  let st3 := { st2 with formatted_start_time := some cached }
  (st3, st2.log_line_number)

/-- Claim C6: the line counter starts at 0, the first record a process
formats carries line number 1, each formatted record increments the
counter once (relative to the post-identity-check state) and prints the
incremented value, consecutive records of the same process carry strictly
increasing (successive) numbers, and the counter resets to 0 with the
session-start cache invalidated exactly when the observed pid differs
from the cached one. -/
theorem format_audit_line_counter_spec :
    initFmtStatics.log_line_number = 0
    ∧ (∀ (pid : Int) (s : String),
        (format_audit_line_statics initFmtStatics pid s).2 = 1)
    ∧ (∀ (st : FmtStatics) (pid : Int) (s : String),
        (format_audit_line_statics st pid s).2
            = (fmt_reset_check st pid).log_line_number + 1
        ∧ (format_audit_line_statics st pid s).1.log_line_number
            = (fmt_reset_check st pid).log_line_number + 1
        ∧ (format_audit_line_statics st pid s).1.log_my_pid = pid)
    ∧ (∀ (st : FmtStatics) (pid : Int) (s t : String),
        (format_audit_line_statics
            (format_audit_line_statics st pid s).1 pid t).2
          = (format_audit_line_statics st pid s).2 + 1)
    ∧ (∀ (st : FmtStatics) (pid : Int),
        fmt_reset_check st pid
          = if st.log_my_pid ≠ pid then ⟨0, pid, none⟩ else st) := by
  refine ⟨rfl, ?_, ?_, ?_, fun st pid => rfl⟩
  · intro pid s
    unfold format_audit_line_statics fmt_reset_check initFmtStatics
    split <;> rfl
  · intro st pid s
    refine ⟨rfl, rfl, ?_⟩
    unfold format_audit_line_statics fmt_reset_check
    split <;> simp_all
  · intro st pid s t
    unfold format_audit_line_statics fmt_reset_check
    split <;> simp_all

/-- Error verbosity threshold PGERROR_VERBOSE from the PostgreSQL enum
(TERSE, DEFAULT, VERBOSE), used at logtofile.c line 601. -/
def PGERROR_VERBOSE : Int := 2

/-- Source-location CSV field of pgauditlogtofile_format_audit_line
(logtofile.c lines 600-613), rendered between its delimiting commas:
below PGERROR_VERBOSE nothing is appended; at or above it, a message is
built (function and file, or file alone, or nothing when the file name is
absent) and appended as a CSV literal.  The StringInfo msgbuf is never a
NULL pointer, so the literal is always appended under verbose. -/
def source_location_field (verbosity : Int)
    (funcname filename : Option String) (lineno : Int) : List Char :=
  if PGERROR_VERBOSE ≤ verbosity then
    let msg : List Char :=
      match funcname, filename with
      | some fn, some fl =>
        (fn ++ ", " ++ fl ++ ":" ++ toString lineno).data
      | none, some fl => (fl ++ ":" ++ toString lineno).data
      | _, none => []
    append_csv_literal (some msg)
  else []

/-- Claim C10: the source-location field has content only under verbosity
at least PGERROR_VERBOSE - below that nothing at all is rendered; under
verbose verbosity the field is always a double-quoted literal, which is an
empty quote pair when both function name and file name are absent, so the
absent-with-verbose and absent-without-verbose renderings differ. -/
theorem source_location_field_spec
    (v : Int) (f fl : Option String) (n : Int) :
    (v < PGERROR_VERBOSE → source_location_field v f fl n = [])
    ∧ (PGERROR_VERBOSE ≤ v →
        ∃ m : List Char,
          source_location_field v f fl n = '"' :: (csv_escape m ++ ['"']))
    ∧ (PGERROR_VERBOSE ≤ v → f = none → fl = none →
        source_location_field v f fl n = ['"', '"'])
    ∧ source_location_field PGERROR_VERBOSE none none n
        ≠ source_location_field (PGERROR_VERBOSE - 1) none none n := by
  refine ⟨?_, ?_, ?_, ?_⟩
  · intro hv
    unfold source_location_field
    rw [if_neg (by omega)]
  · intro hv
    unfold source_location_field
    rw [if_pos hv]
    exact ⟨_, rfl⟩
  · intro hv hf hfl
    subst hf
    subst hfl
    unfold source_location_field
    rw [if_pos hv]
    rfl
  · unfold source_location_field
    rw [if_pos (by omega), if_neg (by omega)]
    simp [append_csv_literal]

/-- Witness for claim C10 at concrete inputs: verbosity 1 renders nothing,
verbosity 2 with both names absent renders an empty quote pair. -/
theorem source_location_field_spec_witness :
    source_location_field 1 none none 7 = []
    ∧ source_location_field 2 none none 7 = ['"', '"'] :=
  ⟨(source_location_field_spec 1 none none 7).1 (by decide),
   (source_location_field_spec 2 none none 7).2.2.1 (by decide) rfl rfl⟩

/-- Per-process writer state: the backend copy of the filename
(filename_in_use, logtofile.c line 65), whether the file handler is open
(file_handler non NULL, line 64), and the formatter statics. -/
structure LocalState where
  filename_in_use : String
  file_open : Bool
  fmt : FmtStatics
  deriving DecidableEq, Repr

/-- External pg_strftime rendering of a filename pattern at a period start
(logtofile.c lines 422-425 call PostgreSQL code outside this repository).
Modelled as a fixed deterministic rendering of the pattern and the period
start; the claims only use that equal inputs give equal filenames. -/
def pg_strftime_filename (pattern : String) (period_start : Int) : String :=
  pattern ++ "@" ++ toString period_start

/-- pgauditlogtofile_calculate_filename (logtofile.c lines 411-427): the
period start is the stored deadline minus the rotation interval in
seconds, and the shared filename becomes directory, slash, and the pattern
rendered at the period start. -/
def pgauditlogtofile_calculate_filename
    (dir pattern : String) (next_rotation_time rotation_age : Int) : String :=
  dir ++ "/" ++ pg_strftime_filename pattern
    (next_rotation_time - rotation_age * 60)

/-- pgauditlogtofile_write_audit (logtofile.c lines 432-455): format the
line (updating the formatter statics), write it, and compare the byte
count returned by fwrite (an input here, modelling the I/O outcome) with
the line length.  line_len is the length of the formatted line buf.len;
the file handler is not touched.  Returns success flag, new local state,
whether the could-not-write diagnostic was emitted, and the line number
the record carried. -/
def pgauditlogtofile_write_audit
    (loc : LocalState) (pid : Int) (start_text : String)
    (line_len bytes_written : Int) : Bool × LocalState × Bool × Int :=
  let fmtres := format_audit_line_statics loc.fmt pid start_text
  let ok := bytes_written == line_len
  (ok, { loc with fmt := fmtres.1 }, !ok, fmtres.2)

/-- Result of one pgauditlogtofile_record_audit call. -/
structure RecordResult where
  ok : Bool
  shm : Shm
  loc : LocalState
  open_diag : Bool
  write_diag : Bool
  emitted_line_number : Option Int
  deriving DecidableEq, Repr

/-- pgauditlogtofile_record_audit (logtofile.c lines 279-294): check
rotation (possibly mutating the shared state), on rotation recompute the
shared filename and close the local file, then open the file if needed
(open_succeeds models the fopen outcome; on success filename_in_use is
set to the shared filename, lines 384-394), and finally write the record. -/
def pgauditlogtofile_record_audit
    (shm : Shm) (loc : LocalState) (now gmtoff rotation_age : Int)
    (dir pattern : String) (open_succeeds : Bool) (pid : Int)
    (start_text : String) (line_len bytes_written : Int) : RecordResult :=
  let rot := pgauditlogtofile_needs_rotate_file shm loc.filename_in_use
    now gmtoff rotation_age
  let newname := pgauditlogtofile_calculate_filename dir pattern
    rot.2.next_rotation_time rotation_age
  let shm2 := if rot.1 then { rot.2 with filename := newname } else rot.2
  let loc1 := if rot.1 then { loc with file_open := false } else loc
  if loc1.file_open then
    let w := pgauditlogtofile_write_audit loc1 pid start_text
      line_len bytes_written
    ⟨w.1, shm2, w.2.1, false, w.2.2.1, some w.2.2.2⟩
  else if open_succeeds then
    let loc2 := { loc1 with file_open := true, filename_in_use := shm2.filename }
    let w := pgauditlogtofile_write_audit loc2 pid start_text
      line_len bytes_written
    ⟨w.1, shm2, w.2.1, false, w.2.2.1, some w.2.2.2⟩
  else
    ⟨false, shm2, loc1, true, false, none⟩

/-- pgauditlogtofile_emit_log (logtofile.c lines 235-261), with the record
prefix test and enablement precomputed as booleans and the outcome of
pgauditlogtofile_record_audit given as record_ok.  Models the mutation of
output_to_server on the ErrorData and whether the previous emit-log hook
(the chained fallback) is invoked. -/
structure EmitResult where
  output_to_server : Bool
  prev_hook_called : Bool
  deriving DecidableEq, Repr

/-- Dispatcher logic of pgauditlogtofile_emit_log: a non-audit record or a
disabled extension passes through to the previous hook untouched; a
recorded audit record suppresses server output; a failed record falls back
to the previous hook with output_to_server untouched. -/
def pgauditlogtofile_emit_log
    (is_audit enabled record_ok has_prev output_to_server0 : Bool) :
    EmitResult :=
  if !is_audit then ⟨output_to_server0, has_prev⟩
  else if !enabled then ⟨output_to_server0, has_prev⟩
  else if record_ok then ⟨false, false⟩
  else ⟨output_to_server0, has_prev⟩

theorem calculate_next_rotation_time_gt (now g a : Int) (ha : 0 < a) :
    now < pgauditlogtofile_calculate_next_rotation_time now g a := by
  have hr : (0 : Int) < a * 60 := by omega
  have h := Int.tmod_lt_of_pos (now + g) hr
  show now < now + g - Int.tmod (now + g) (a * 60) + a * 60 - g
  omega

theorem needs_rotate_file_quiet
    (shm : Shm) (fn : String) (now g a : Int)
    (h1 : shm.force_rotation = false)
    (h2 : pg_strcasecmp_eq fn shm.filename = true)
    (h3 : now < shm.next_rotation_time) :
    pgauditlogtofile_needs_rotate_file shm fn now g a = (false, shm) := by
  unfold pgauditlogtofile_needs_rotate_file
  rw [h1, h2]
  simp only [Bool.false_eq_true, if_false, Bool.not_true, if_neg (by omega :
    ¬ shm.next_rotation_time ≤ now)]

/-- Claim C5 counterexample: from a state where the backend filename
differs from the shared filename (force flag clear, deadline in the
future), pgauditlogtofile_needs_rotate_file returns true, and with nothing
at all happening in between the immediately following call returns true
again, not false. -/
theorem needs_rotate_twice_counterexample :
    (pgauditlogtofile_needs_rotate_file ⟨"b", false, 100⟩ "a" 0 0 60).1 = true
    ∧ (pgauditlogtofile_needs_rotate_file
        (pgauditlogtofile_needs_rotate_file ⟨"b", false, 100⟩ "a" 0 0 60).2
        "a" 0 0 60).1 = true := by
  decide

/-- Claim C5 amended: when pgauditlogtofile_needs_rotate_file returns true
from a state where the backend filename matches the shared one (and, if
the trigger was the force flag, the deadline is still in the future; the
rotation age being positive), the immediately following call with no
intervening force-request, filename change or deadline passage returns
false.  A true caused by a persisting filename mismatch is followed by
another true, as the counterexample shows. -/
theorem needs_rotate_twice_amended
    (shm : Shm) (fn : String) (now g a : Int)
    (ha : 0 < a)
    (h2 : pg_strcasecmp_eq fn shm.filename = true)
    (hd : shm.force_rotation = false ∨ now < shm.next_rotation_time)
    (hfst : (pgauditlogtofile_needs_rotate_file shm fn now g a).1 = true) :
    (pgauditlogtofile_needs_rotate_file
      (pgauditlogtofile_needs_rotate_file shm fn now g a).2 fn now g a).1
      = false := by
  by_cases hforce : shm.force_rotation = true
  · have hlt : now < shm.next_rotation_time := by
      rcases hd with h | h
      · rw [hforce] at h
        exact absurd h (by simp)
      · exact h
    have hstep : pgauditlogtofile_needs_rotate_file shm fn now g a
        = (true, { shm with force_rotation := false }) := by
      unfold pgauditlogtofile_needs_rotate_file
      rw [hforce]
      simp
    rw [hstep]
    show (pgauditlogtofile_needs_rotate_file
      { shm with force_rotation := false } fn now g a).1 = false
    rw [needs_rotate_file_quiet { shm with force_rotation := false }
      fn now g a rfl h2 hlt]
  · have hforce' : shm.force_rotation = false := by
      cases h : shm.force_rotation
      · rfl
      · exact absurd h hforce
    by_cases hdl : shm.next_rotation_time ≤ now
    · have hstep : pgauditlogtofile_needs_rotate_file shm fn now g a
          = (true, { shm with next_rotation_time :=
              pgauditlogtofile_calculate_next_rotation_time now g a }) := by
        unfold pgauditlogtofile_needs_rotate_file
        rw [hforce', h2]
        simp [hdl]
      rw [hstep]
      show (pgauditlogtofile_needs_rotate_file
        { shm with next_rotation_time :=
            pgauditlogtofile_calculate_next_rotation_time now g a }
        fn now g a).1 = false
      rw [needs_rotate_file_quiet
        { shm with next_rotation_time :=
            pgauditlogtofile_calculate_next_rotation_time now g a }
        fn now g a hforce' h2 (calculate_next_rotation_time_gt now g a ha)]
    · rw [needs_rotate_file_quiet shm fn now g a hforce' h2 (by omega)] at hfst
      exact absurd hfst (by simp)

/-- Witness for the amended claim C5 at a concrete input. -/
theorem needs_rotate_twice_amended_witness :
    (0 : Int) < 60
    ∧ pg_strcasecmp_eq "x" (Shm.mk "x" true 100).filename = true
    ∧ ((Shm.mk "x" true 100).force_rotation = false
        ∨ (0 : Int) < (Shm.mk "x" true 100).next_rotation_time)
    ∧ (pgauditlogtofile_needs_rotate_file (Shm.mk "x" true 100) "x" 0 0 60).1
        = true
    ∧ (pgauditlogtofile_needs_rotate_file
        (pgauditlogtofile_needs_rotate_file (Shm.mk "x" true 100) "x" 0 0 60).2
        "x" 0 0 60).1 = false :=
  ⟨by decide, by decide, Or.inr (by decide), by decide,
   needs_rotate_twice_amended (Shm.mk "x" true 100) "x" 0 0 60 (by decide)
     (by decide) (Or.inr (by decide)) (by decide)⟩

/-- Unlocked read of the deadline comparison at logtofile.c line 336. -/
def deadline_check_observe (shm : Shm) (now : Int) : Bool :=
  shm.next_rotation_time ≤ now

/-- Exclusive-locked region at logtofile.c lines 337-340: recompute the
next rotation time and store it in shared memory. -/
def deadline_locked_store (shm : Shm) (now gmtoff age : Int) : Shm :=
  { shm with next_rotation_time :=
      pgauditlogtofile_calculate_next_rotation_time now gmtoff age }

/-- Interleaving of the deadline branch of two processes that both run the
unlocked observation (line 336) before either acquires the exclusive lock;
the lock then serializes the two stores, A first.  Returns the boolean
each process returns from the deadline check, the final shared state, and
how many processes executed the locked store. -/
def deadline_race_scenario (shm : Shm) (now gmtoff age : Int) :
    Bool × Bool × Shm × Nat :=
  let oA := deadline_check_observe shm now
  let oB := deadline_check_observe shm now
  let shmA := if oA then deadline_locked_store shm now gmtoff age else shm
  let shmB := if oB then deadline_locked_store shmA now gmtoff age else shmA
  (oA, oB, shmB, (if oA then 1 else 0) + (if oB then 1 else 0))

/-- Claim C4 counterexample: when two processes both observe that the
deadline has passed, the code has no second check under the lock, so both
processes execute the exclusive-locked store - the store count is 2, not
exactly 1 as the claim states. -/
theorem deadline_race_counterexample :
    (deadline_race_scenario ⟨"f", false, 0⟩ 0 0 60).2.2.2 = 2
    ∧ ¬ (deadline_race_scenario ⟨"f", false, 0⟩ 0 0 60).2.2.2 = 1 := by
  decide

/-- Claim C4 amended: when two concurrent processes both observe that the
rotation deadline has passed, each in turn acquires the exclusive lock and
executes the recomputation-and-store (the loser of the race re-stores the
deadline); because the recomputation is deterministic in the observation
time the second store writes the identical value, both processes return
true from the deadline check, and both end up writing into the identical
newly computed filename. -/
theorem deadline_race_amended
    (shm : Shm) (now g a : Int) (dir pattern : String)
    (h : shm.next_rotation_time ≤ now) :
    (deadline_race_scenario shm now g a).1 = true
    ∧ (deadline_race_scenario shm now g a).2.1 = true
    ∧ (deadline_race_scenario shm now g a).2.2.2 = 2
    ∧ (deadline_race_scenario shm now g a).2.2.1.next_rotation_time
        = pgauditlogtofile_calculate_next_rotation_time now g a
    ∧ pgauditlogtofile_calculate_filename dir pattern
        (deadline_locked_store shm now g a).next_rotation_time a
      = pgauditlogtofile_calculate_filename dir pattern
        (deadline_race_scenario shm now g a).2.2.1.next_rotation_time a := by
  unfold deadline_race_scenario deadline_check_observe deadline_locked_store
  simp [h]

/-- Witness for the amended claim C4 at a concrete input. -/
theorem deadline_race_amended_witness :
    (Shm.mk "f" false 0).next_rotation_time ≤ (0 : Int)
    ∧ ((deadline_race_scenario (Shm.mk "f" false 0) 0 0 60).1 = true
      ∧ (deadline_race_scenario (Shm.mk "f" false 0) 0 0 60).2.1 = true
      ∧ (deadline_race_scenario (Shm.mk "f" false 0) 0 0 60).2.2.2 = 2
      ∧ (deadline_race_scenario (Shm.mk "f" false 0) 0 0 60).2.2.1.next_rotation_time
          = pgauditlogtofile_calculate_next_rotation_time 0 0 60
      ∧ pgauditlogtofile_calculate_filename "d" "p"
          (deadline_locked_store (Shm.mk "f" false 0) 0 0 60).next_rotation_time 60
        = pgauditlogtofile_calculate_filename "d" "p"
          (deadline_race_scenario (Shm.mk "f" false 0) 0 0 60).2.2.1.next_rotation_time 60) :=
  ⟨by decide, deadline_race_amended (Shm.mk "f" false 0) 0 0 60 "d" "p" (by decide)⟩

theorem format_audit_line_statics_same
    (st : FmtStatics) (pid : Int) (s : String) (h : st.log_my_pid = pid) :
    format_audit_line_statics st pid s
      = (⟨st.log_line_number + 1, pid, some (st.formatted_start_time.getD s)⟩,
         st.log_line_number + 1) := by
  subst h
  unfold format_audit_line_statics fmt_reset_check
  simp

theorem record_audit_write_path
    (shm : Shm) (loc : LocalState) (now gmtoff age : Int)
    (dir pattern : String) (osucc : Bool) (pid : Int) (s : String)
    (len bw : Int)
    (h1 : shm.force_rotation = false)
    (h2 : pg_strcasecmp_eq loc.filename_in_use shm.filename = true)
    (h3 : now < shm.next_rotation_time)
    (h5 : loc.file_open = true) :
    pgauditlogtofile_record_audit shm loc now gmtoff age dir pattern osucc
        pid s len bw
      = ⟨bw == len, shm,
         { loc with fmt := (format_audit_line_statics loc.fmt pid s).1 },
         false, !(bw == len), some (format_audit_line_statics loc.fmt pid s).2⟩ := by
  have hq := needs_rotate_file_quiet shm loc.filename_in_use now gmtoff age
    h1 h2 h3
  unfold pgauditlogtofile_record_audit pgauditlogtofile_write_audit
  rw [hq]
  simp [h5]

/-- Claim C7: the write step fails exactly when the byte count returned by
fwrite differs from the formatted line length; on such a failure the
could-not-write diagnostic is emitted, the file handler and the backend
filename are left untouched (the handle stays open, nothing is closed and
no recovery is attempted - the model totally returns a result instead of
raising), and the dispatcher leaves output_to_server untouched so the
record reaches the fallback sink. -/
theorem write_audit_failure_spec
    (loc : LocalState) (pid : Int) (s : String) (len bw : Int)
    (has_prev ots : Bool) :
    ((pgauditlogtofile_write_audit loc pid s len bw).1 = false ↔ bw ≠ len)
    ∧ (pgauditlogtofile_write_audit loc pid s len bw).2.1.file_open
        = loc.file_open
    ∧ (pgauditlogtofile_write_audit loc pid s len bw).2.1.filename_in_use
        = loc.filename_in_use
    ∧ ((pgauditlogtofile_write_audit loc pid s len bw).2.2.1 = true ↔ bw ≠ len)
    ∧ (bw ≠ len →
        pgauditlogtofile_emit_log true true
          (pgauditlogtofile_write_audit loc pid s len bw).1 has_prev ots
        = ⟨ots, has_prev⟩)
    ∧ (∀ (shm : Shm) (now gmtoff age : Int) (dir pattern : String)
        (osucc : Bool),
        (pgauditlogtofile_record_audit shm loc now gmtoff age dir pattern
          osucc pid s len bw).emitted_line_number.isSome = true →
        bw ≠ len →
        (pgauditlogtofile_record_audit shm loc now gmtoff age dir pattern
          osucc pid s len bw).ok = false
        ∧ (pgauditlogtofile_record_audit shm loc now gmtoff age dir pattern
            osucc pid s len bw).write_diag = true
        ∧ (pgauditlogtofile_record_audit shm loc now gmtoff age dir pattern
            osucc pid s len bw).loc.file_open = true) := by
  by_cases hbw : bw = len
  · subst hbw
    refine ⟨by simp [pgauditlogtofile_write_audit], rfl, rfl,
      by simp [pgauditlogtofile_write_audit], by simp, ?_⟩
    intro shm now gmtoff age dir pattern osucc hsome hne
    exact absurd rfl hne
  · refine ⟨by simp [pgauditlogtofile_write_audit, hbw], rfl, rfl,
      by simp [pgauditlogtofile_write_audit, hbw], ?_, ?_⟩
    · intro hne
      simp [pgauditlogtofile_write_audit, pgauditlogtofile_emit_log, hbw]
    · intro shm now gmtoff age dir pattern osucc hsome hne
      have hne' : (bw == len) = false := by
        simp [hbw]
      by_cases hrot : (pgauditlogtofile_needs_rotate_file shm
        loc.filename_in_use now gmtoff age).1 = true
      all_goals by_cases hop : loc.file_open = true
      all_goals by_cases hos : osucc = true
      all_goals simp [pgauditlogtofile_record_audit,
        pgauditlogtofile_write_audit, hrot, hop, hos, hne'] at hsome ⊢

/-- Witness for claim C7 at a concrete input. -/
theorem write_audit_failure_spec_witness :
    ((pgauditlogtofile_write_audit ⟨"f", true, ⟨3, 7, none⟩⟩ 7 "st" 10 4).1
        = false ↔ (4 : Int) ≠ 10)
    ∧ (pgauditlogtofile_write_audit ⟨"f", true, ⟨3, 7, none⟩⟩ 7 "st" 10 4).2.1.file_open
        = (LocalState.mk "f" true ⟨3, 7, none⟩).file_open
    ∧ (pgauditlogtofile_write_audit ⟨"f", true, ⟨3, 7, none⟩⟩ 7 "st" 10 4).2.1.filename_in_use
        = (LocalState.mk "f" true ⟨3, 7, none⟩).filename_in_use
    ∧ ((pgauditlogtofile_write_audit ⟨"f", true, ⟨3, 7, none⟩⟩ 7 "st" 10 4).2.2.1
        = true ↔ (4 : Int) ≠ 10)
    ∧ ((4 : Int) ≠ 10 →
        pgauditlogtofile_emit_log true true
          (pgauditlogtofile_write_audit ⟨"f", true, ⟨3, 7, none⟩⟩ 7 "st" 10 4).1
          true true
        = ⟨true, true⟩)
    ∧ (∀ (shm : Shm) (now gmtoff age : Int) (dir pattern : String)
        (osucc : Bool),
        (pgauditlogtofile_record_audit shm ⟨"f", true, ⟨3, 7, none⟩⟩ now gmtoff
          age dir pattern osucc 7 "st" 10 4).emitted_line_number.isSome = true →
        (4 : Int) ≠ 10 →
        (pgauditlogtofile_record_audit shm ⟨"f", true, ⟨3, 7, none⟩⟩ now gmtoff
          age dir pattern osucc 7 "st" 10 4).ok = false
        ∧ (pgauditlogtofile_record_audit shm ⟨"f", true, ⟨3, 7, none⟩⟩ now
            gmtoff age dir pattern osucc 7 "st" 10 4).write_diag = true
        ∧ (pgauditlogtofile_record_audit shm ⟨"f", true, ⟨3, 7, none⟩⟩ now
            gmtoff age dir pattern osucc 7 "st" 10 4).loc.file_open = true) :=
  write_audit_failure_spec ⟨"f", true, ⟨3, 7, none⟩⟩ 7 "st" 10 4 true true

/-- Claim C9: a record that fails at open consumes no line number (the
open diagnostic fires, the formatter statics are untouched and no line
number was emitted), whereas a record whose write fails with a byte-count
mismatch still consumes its line number during formatting, so the next
successfully written record of the same process carries the next value,
skipping the consumed one. -/
theorem record_audit_line_number_spec
    (shm : Shm) (loc : LocalState) (now gmtoff age : Int)
    (dir pattern : String) (pid : Int) (s : String) (len1 bw1 len2 : Int)
    (h1 : shm.force_rotation = false)
    (h2 : pg_strcasecmp_eq loc.filename_in_use shm.filename = true)
    (h3 : now < shm.next_rotation_time)
    (h4 : loc.fmt.log_my_pid = pid) :
    ((pgauditlogtofile_record_audit shm loc now gmtoff age dir pattern false
        pid s len1 bw1).open_diag = true →
      (pgauditlogtofile_record_audit shm loc now gmtoff age dir pattern false
        pid s len1 bw1).loc.fmt = loc.fmt
      ∧ (pgauditlogtofile_record_audit shm loc now gmtoff age dir pattern
          false pid s len1 bw1).emitted_line_number = none
      ∧ (pgauditlogtofile_record_audit shm loc now gmtoff age dir pattern
          false pid s len1 bw1).ok = false)
    ∧ (loc.file_open = true → bw1 ≠ len1 →
        (pgauditlogtofile_record_audit shm loc now gmtoff age dir pattern
          true pid s len1 bw1).ok = false
        ∧ (pgauditlogtofile_record_audit shm loc now gmtoff age dir pattern
            true pid s len1 bw1).emitted_line_number
            = some (loc.fmt.log_line_number + 1)
        ∧ (pgauditlogtofile_record_audit
            (pgauditlogtofile_record_audit shm loc now gmtoff age dir pattern
              true pid s len1 bw1).shm
            (pgauditlogtofile_record_audit shm loc now gmtoff age dir pattern
              true pid s len1 bw1).loc
            now gmtoff age dir pattern true pid s len2 len2).ok = true
        ∧ (pgauditlogtofile_record_audit
            (pgauditlogtofile_record_audit shm loc now gmtoff age dir pattern
              true pid s len1 bw1).shm
            (pgauditlogtofile_record_audit shm loc now gmtoff age dir pattern
              true pid s len1 bw1).loc
            now gmtoff age dir pattern true pid s len2 len2).emitted_line_number
            = some (loc.fmt.log_line_number + 2)) := by
  constructor
  · intro hdiag
    by_cases hrot : (pgauditlogtofile_needs_rotate_file shm
      loc.filename_in_use now gmtoff age).1 = true
    all_goals by_cases hop : loc.file_open = true
    all_goals simp [pgauditlogtofile_record_audit,
      pgauditlogtofile_write_audit, hrot, hop] at hdiag ⊢
  · intro h5 hbw
    have hr1 := record_audit_write_path shm loc now gmtoff age dir pattern
      true pid s len1 bw1 h1 h2 h3 h5
    have hf1 := format_audit_line_statics_same loc.fmt pid s h4
    rw [hr1]
    have hne : (bw1 == len1) = false := by
      simp [hbw]
    have hr2 := record_audit_write_path shm
      { loc with fmt := (format_audit_line_statics loc.fmt pid s).1 }
      now gmtoff age dir pattern true pid s len2 len2 h1 h2 h3 h5
    rw [hr2]
    rw [hf1]
    have hf2 := format_audit_line_statics_same
      (⟨loc.fmt.log_line_number + 1, pid,
        some (loc.fmt.formatted_start_time.getD s)⟩ : FmtStatics) pid s rfl
    rw [hf2]
    simp [hne]
    omega

/-- Witness for claim C9 at a concrete input. -/
theorem record_audit_line_number_spec_witness :
    (Shm.mk "f" false 50).force_rotation = false
    ∧ pg_strcasecmp_eq "f" (Shm.mk "f" false 50).filename = true
    ∧ (0 : Int) < (Shm.mk "f" false 50).next_rotation_time
    ∧ (LocalState.mk "f" true ⟨3, 7, none⟩).fmt.log_my_pid = 7
    ∧ ((pgauditlogtofile_record_audit (Shm.mk "f" false 50)
          (LocalState.mk "f" true ⟨3, 7, none⟩) 0 0 60 "d" "p" true 7 "st"
          10 4).ok = false
      ∧ (pgauditlogtofile_record_audit (Shm.mk "f" false 50)
          (LocalState.mk "f" true ⟨3, 7, none⟩) 0 0 60 "d" "p" true 7 "st"
          10 4).emitted_line_number = some 4
      ∧ (pgauditlogtofile_record_audit
          (pgauditlogtofile_record_audit (Shm.mk "f" false 50)
            (LocalState.mk "f" true ⟨3, 7, none⟩) 0 0 60 "d" "p" true 7 "st"
            10 4).shm
          (pgauditlogtofile_record_audit (Shm.mk "f" false 50)
            (LocalState.mk "f" true ⟨3, 7, none⟩) 0 0 60 "d" "p" true 7 "st"
            10 4).loc
          0 0 60 "d" "p" true 7 "st" 12 12).ok = true
      ∧ (pgauditlogtofile_record_audit
          (pgauditlogtofile_record_audit (Shm.mk "f" false 50)
            (LocalState.mk "f" true ⟨3, 7, none⟩) 0 0 60 "d" "p" true 7 "st"
            10 4).shm
          (pgauditlogtofile_record_audit (Shm.mk "f" false 50)
            (LocalState.mk "f" true ⟨3, 7, none⟩) 0 0 60 "d" "p" true 7 "st"
            10 4).loc
          0 0 60 "d" "p" true 7 "st" 12 12).emitted_line_number = some 5) :=
  ⟨rfl, by decide, by decide, rfl,
   (record_audit_line_number_spec (Shm.mk "f" false 50)
      (LocalState.mk "f" true ⟨3, 7, none⟩) 0 0 60 "d" "p" 7 "st" 10 4 12
      rfl (by decide) (by decide) rfl).2 rfl (by decide)⟩

end PgAuditLogToFile
